import Mathlib

/-!
# Verification of the UI QA agent's matching / aggregation / reporting core

This file gives a shallow embedding in Lean 4 of the core logic of the
`ui-qa-agent` repository and proves properties of it:

* the screenshot/design matcher (`matchScreenshotsToDesigns`,
  `parseMatchingResponse`, `createFallbackMatching` from the Bedrock client,
  `src/unnamed/part_006`);
* the comparison aggregator (`compareUIScreenshot`, `convertToLegacyFormat`,
  same file);
* the PR report publisher (`postOrUpdateComment` from
  `src/src/github/pr-handler.ts`);
* the Figma rate-limit retry wrapper (`withRetry` from
  `src/src/figma/client.ts`);
* commit-status derivation (`runAnalyzeMode` from `src/src/index.ts`);
* the image annotation step (`createAnnotatedImage` / `annotateImage` from
  `src/src/utils/image-annotator.ts`).

Modelling conventions:

* JavaScript numbers that are semantically integer indices/counts are
  modelled as `Nat` (counts from the typed interfaces) or `Int`
  (values coming straight out of `JSON.parse`, which may be negative);
  a JS `Number(...)` that may be `NaN` is modelled as `Option Int` with
  `none` for `NaN`/absent.
* Asynchronous calls that may throw are modelled by passing the outcome of
  the call as an explicit argument (`Option`/sum types); `none` models a
  thrown exception or an unparseable response.
* `JSON.parse` + the `/\x7b[\s\S]*\x7d/` JSON-substring extraction is
  modelled as an `Option` of the already-structured value (`none` iff no
  JSON object substring is present or parsing throws).
-/

namespace UIQA

/-! ## Matcher data model (bedrock client, `src/unnamed/part_006`) -/

/-- A committed screenshot/design pairing (`ScreenshotDesignMatch` in
`dist/bedrock/client.d.ts`). Indices are the validated, in-range indices. -/
structure ScreenshotDesignMatch where
  screenshotIndex : Nat
  figmaIndex : Nat
  confidence : Int
  reasoning : String
  deriving Repr, DecidableEq

/-- Result of the matcher (`ScreenshotMatchResult`). -/
structure ScreenshotMatchResult where
  «matches» : List ScreenshotDesignMatch
  unmatchedScreenshots : List Nat
  unmatchedFigmaDesigns : List Nat
  deriving Repr, DecidableEq

/-- One raw entry of `parsed.«matches»` as produced by `JSON.parse` on the AI
response. `Number(match.screenshotIndex)` may be `NaN` (modelled `none`);
`Number(match.confidence) || 50` treats `NaN` (`none`) and `0` as absent;
`match.reasoning || '...'` treats an absent reasoning (`none`) as missing. -/
structure RawMatch where
  screenshotIndex : Option Int
  figmaIndex : Option Int
  confidence : Option Int
  reasoning : Option String
  deriving Repr, DecidableEq

/-- The JSON object extracted from the AI matching response
(`parsed` in `parseMatchingResponse`); `parsed.«matches» || []` is modelled by
always carrying a list. -/
structure ParsedMatching where
  «matches» : List RawMatch
  deriving Repr, DecidableEq

/-- `Math.min(100, Math.max(0, Number(match.confidence) || 50))`. -/
def sanitizeConfidence (c : Option Int) : Int :=
  let n : Int :=
    match c with
    | none => 50
    | some v => if v = 0 then 50 else v
  min 100 (max 0 n)

/-- One iteration of the validation loop in `parseMatchingResponse`
(part_006 lines 408–441): drop out-of-range and duplicate pairs, clamp the
confidence, substitute a placeholder reasoning. The accumulator is
`(matches so far, used screenshot indices, used figma indices)`. -/
def validateStep (screenshotCount figmaCount : Nat)
    (acc : List ScreenshotDesignMatch × List Nat × List Nat) (m : RawMatch) :
    List ScreenshotDesignMatch × List Nat × List Nat :=
  match m.screenshotIndex, m.figmaIndex with
  | some sIdx, some fIdx =>
    if 0 ≤ sIdx ∧ sIdx < (screenshotCount : Int) ∧
        0 ≤ fIdx ∧ fIdx < (figmaCount : Int) ∧
        sIdx.toNat ∉ acc.2.1 ∧ fIdx.toNat ∉ acc.2.2 then
      (acc.1 ++ [⟨sIdx.toNat, fIdx.toNat, sanitizeConfidence m.confidence,
                  m.reasoning.getD "Matched by AI analysis"⟩],
       acc.2.1 ++ [sIdx.toNat], acc.2.2 ++ [fIdx.toNat])
    else acc
  | _, _ => acc

/-- The whole validation loop of `parseMatchingResponse`. -/
def validateMatches (raw : List RawMatch) (screenshotCount figmaCount : Nat) :
    List ScreenshotDesignMatch × List Nat × List Nat :=
  raw.foldl (validateStep screenshotCount figmaCount) ([], [], [])

/-- `createFallbackMatching` (part_006 lines 459–479): index-order pairing
with confidence 50, longer side reported unmatched. -/
def createFallbackMatching (screenshotCount figmaCount : Nat) :
    ScreenshotMatchResult :=
  let minCount := min screenshotCount figmaCount
  { «matches» := (List.range minCount).map fun i =>
      ⟨i, i, 50, "Fallback: matched by upload order"⟩
    unmatchedScreenshots := List.range' minCount (screenshotCount - minCount)
    unmatchedFigmaDesigns := List.range' minCount (figmaCount - minCount) }

/-- `parseMatchingResponse` (part_006 lines 390–456). `resp = none` models
"no JSON object substring present or `JSON.parse` threw"; otherwise the
parsed object is validated. An empty raw match list, or a validation pass
that keeps no match, falls back to order-based matching when both sides are
non-empty. -/
def parseMatchingResponse (resp : Option ParsedMatching)
    (screenshotCount figmaCount : Nat) : ScreenshotMatchResult :=
  match resp with
  | none => createFallbackMatching screenshotCount figmaCount
  | some parsed =>
    if parsed.«matches».isEmpty ∧ 0 < screenshotCount ∧ 0 < figmaCount then
      createFallbackMatching screenshotCount figmaCount
    else
      let v := validateMatches parsed.«matches» screenshotCount figmaCount
      if v.1.isEmpty ∧ 0 < screenshotCount ∧ 0 < figmaCount then
        createFallbackMatching screenshotCount figmaCount
      else
        { «matches» := v.1
          unmatchedScreenshots :=
            (List.range screenshotCount).filter fun i => !(v.2.1.contains i)
          unmatchedFigmaDesigns :=
            (List.range figmaCount).filter fun i => !(v.2.2.contains i) }

/-- `matchScreenshotsToDesigns` (part_006 lines 286–341). The outcome of the
AI call is passed explicitly: `ai = none` models `invokeModelWithImages`
throwing; `ai = some resp` models a returned response whose JSON-extraction
outcome is `resp`. The two degenerate branches never inspect `ai`, which is
the shallow-embedding rendering of "never invoke the AI collaborator". -/
def matchScreenshotsToDesigns (screenshotCount figmaCount : Nat)
    (ai : Option (Option ParsedMatching)) : ScreenshotMatchResult :=
  if screenshotCount = 1 ∧ figmaCount = 1 then
    { «matches» := [⟨0, 0, 100, "Single screenshot matched to single design"⟩]
      unmatchedScreenshots := []
      unmatchedFigmaDesigns := [] }
  else if screenshotCount = 1 ∧ 1 < figmaCount then
    { «matches» := [⟨0, 0, 80,
        "Single screenshot matched to first Figma design. Upload additional screenshots to match other designs."⟩]
      unmatchedScreenshots := []
      unmatchedFigmaDesigns := (List.range (figmaCount - 1)).map (· + 1) }
  else
    match ai with
    | none => createFallbackMatching screenshotCount figmaCount
    | some resp => parseMatchingResponse resp screenshotCount figmaCount

/-! ## Matcher invariants -/

/-- Membership in the `unmatched` filters of `parseMatchingResponse`. -/
theorem mem_filter_not_contains {l : List Nat} {n i : Nat} :
    i ∈ (List.range n).filter (fun j => !(l.contains j)) ↔ i < n ∧ i ∉ l := by
  simp [List.mem_filter, List.mem_range]

/-- Invariant carried by the validation loop of `parseMatchingResponse`:
the used-index sets are exactly the index projections of the accumulated
matches, both are duplicate-free, and every accumulated match is in range
with a clamped confidence. -/
def MatcherStateInv (sc fc : Nat)
    (st : List ScreenshotDesignMatch × List Nat × List Nat) : Prop :=
  st.2.1 = st.1.map (·.screenshotIndex) ∧
  st.2.2 = st.1.map (·.figmaIndex) ∧
  st.2.1.Nodup ∧ st.2.2.Nodup ∧
  ∀ m ∈ st.1, m.screenshotIndex < sc ∧ m.figmaIndex < fc ∧
    0 ≤ m.confidence ∧ m.confidence ≤ 100

theorem sanitizeConfidence_nonneg (c : Option Int) : 0 ≤ sanitizeConfidence c := by
  unfold sanitizeConfidence
  simp only [le_min_iff, le_max_iff]
  exact ⟨by omega, Or.inl le_rfl⟩

theorem sanitizeConfidence_le (c : Option Int) : sanitizeConfidence c ≤ 100 := by
  unfold sanitizeConfidence
  exact min_le_left _ _

theorem validateStep_inv {sc fc : Nat}
    {st : List ScreenshotDesignMatch × List Nat × List Nat} (m : RawMatch)
    (h : MatcherStateInv sc fc st) :
    MatcherStateInv sc fc (validateStep sc fc st m) := by
  obtain ⟨h1, h2, h3, h4, h5⟩ := h
  unfold validateStep
  cases hs : m.screenshotIndex with
  | none => exact ⟨h1, h2, h3, h4, h5⟩
  | some sIdx =>
    cases hf : m.figmaIndex with
    | none => exact ⟨h1, h2, h3, h4, h5⟩
    | some fIdx =>
      by_cases hc :
          0 ≤ sIdx ∧ sIdx < (sc : Int) ∧ 0 ≤ fIdx ∧ fIdx < (fc : Int) ∧
            sIdx.toNat ∉ st.2.1 ∧ fIdx.toNat ∉ st.2.2
      · simp only [if_pos hc]
        obtain ⟨hc1, hc2, hc3, hc4, hc5, hc6⟩ := hc
        refine ⟨by simp [h1], by simp [h2], ?_, ?_, ?_⟩
        · rw [List.nodup_append]
          exact ⟨h3, List.nodup_singleton _, by simpa using hc5⟩
        · rw [List.nodup_append]
          exact ⟨h4, List.nodup_singleton _, by simpa using hc6⟩
        · intro x hx
          rcases List.mem_append.1 hx with hx | hx
          · exact h5 x hx
          · have hx' : x = ⟨sIdx.toNat, fIdx.toNat,
                sanitizeConfidence m.confidence,
                m.reasoning.getD "Matched by AI analysis"⟩ := by
              simpa using hx
            subst hx'
            exact ⟨(by omega : sIdx.toNat < sc), (by omega : fIdx.toNat < fc),
              sanitizeConfidence_nonneg _, sanitizeConfidence_le _⟩
      · simp only [if_neg hc]
        exact ⟨h1, h2, h3, h4, h5⟩

theorem foldl_validateStep_inv {sc fc : Nat} (raw : List RawMatch)
    {st : List ScreenshotDesignMatch × List Nat × List Nat}
    (h : MatcherStateInv sc fc st) :
    MatcherStateInv sc fc (raw.foldl (validateStep sc fc) st) := by
  induction raw generalizing st with
  | nil => exact h
  | cons hd tl ih => exact ih (validateStep_inv hd h)

theorem validateMatches_inv (raw : List RawMatch) (sc fc : Nat) :
    MatcherStateInv sc fc (validateMatches raw sc fc) :=
  foldl_validateStep_inv raw ⟨rfl, rfl, List.nodup_nil, List.nodup_nil, by simp⟩

/-- The invariant properties of one match-set result: no index used twice,
all indices in range, confidence clamped to [0,100], and every in-range
index on either side is in exactly one of {some match, the corresponding
unmatched list}. -/
def MatchResultWF (sc fc : Nat) (r : ScreenshotMatchResult) : Prop :=
  (r.«matches».map (·.screenshotIndex)).Nodup ∧
  (r.«matches».map (·.figmaIndex)).Nodup ∧
  (∀ m ∈ r.«matches», m.screenshotIndex < sc ∧ m.figmaIndex < fc ∧
    0 ≤ m.confidence ∧ m.confidence ≤ 100) ∧
  (∀ i, i < sc →
    ((∃ m ∈ r.«matches», m.screenshotIndex = i) ↔ i ∉ r.unmatchedScreenshots)) ∧
  (∀ j, j < fc →
    ((∃ m ∈ r.«matches», m.figmaIndex = j) ↔ j ∉ r.unmatchedFigmaDesigns))

theorem createFallbackMatching_wf (sc fc : Nat) :
    MatchResultWF sc fc (createFallbackMatching sc fc) := by
  unfold createFallbackMatching MatchResultWF
  refine ⟨?_, ?_, ?_, ?_, ?_⟩ <;> dsimp only
  · rw [List.map_map]
    show (List.map (fun (i : Nat) => i) (List.range (min sc fc))).Nodup
    simpa using List.nodup_range (min sc fc)
  · rw [List.map_map]
    show (List.map (fun (i : Nat) => i) (List.range (min sc fc))).Nodup
    simpa using List.nodup_range (min sc fc)
  · intro m hm
    simp only [List.mem_map, List.mem_range] at hm
    obtain ⟨i, hi, rfl⟩ := hm
    exact ⟨(by omega : i < sc), (by omega : i < fc), by norm_num, by norm_num⟩
  · intro i hi
    simp only [List.mem_map, List.mem_range, List.mem_range'_1]
    constructor
    · rintro ⟨m, ⟨k, hk, rfl⟩, h⟩ hcon
      dsimp only at h
      omega
    · intro h
      have hik : i < min sc fc := by
        by_contra hge
        exact h (by omega)
      exact ⟨_, ⟨i, hik, rfl⟩, rfl⟩
  · intro j hj
    simp only [List.mem_map, List.mem_range, List.mem_range'_1]
    constructor
    · rintro ⟨m, ⟨k, hk, rfl⟩, h⟩ hcon
      dsimp only at h
      omega
    · intro h
      have hjk : j < min sc fc := by
        by_contra hge
        exact h (by omega)
      exact ⟨_, ⟨j, hjk, rfl⟩, rfl⟩

theorem parseMatchingResponse_wf (resp : Option ParsedMatching) (sc fc : Nat) :
    MatchResultWF sc fc (parseMatchingResponse resp sc fc) := by
  unfold parseMatchingResponse
  cases resp with
  | none => exact createFallbackMatching_wf sc fc
  | some parsed =>
    by_cases h1 : parsed.«matches».isEmpty ∧ 0 < sc ∧ 0 < fc
    · simp only [if_pos h1]
      exact createFallbackMatching_wf sc fc
    · simp only [if_neg h1]
      by_cases h2 : (validateMatches parsed.«matches» sc fc).1.isEmpty ∧
          0 < sc ∧ 0 < fc
      · simp only [if_pos h2]
        exact createFallbackMatching_wf sc fc
      · simp only [if_neg h2]
        obtain ⟨e1, e2, e3, e4, e5⟩ := validateMatches_inv parsed.«matches» sc fc
        refine ⟨?_, ?_, ?_, ?_, ?_⟩ <;> dsimp only
        · exact e1 ▸ e3
        · exact e2 ▸ e4
        · exact e5
        · intro i hi
          rw [mem_filter_not_contains, e1]
          constructor
          · rintro ⟨m, hm, rfl⟩ ⟨-, hnot⟩
            exact hnot (List.mem_map.2 ⟨m, hm, rfl⟩)
          · intro h
            by_contra hno
            exact h ⟨hi, fun hmem => by
              obtain ⟨m, hm, hme⟩ := List.mem_map.1 hmem
              exact hno ⟨m, hm, hme⟩⟩
        · intro j hj
          rw [mem_filter_not_contains, e2]
          constructor
          · rintro ⟨m, hm, rfl⟩ ⟨-, hnot⟩
            exact hnot (List.mem_map.2 ⟨m, hm, rfl⟩)
          · intro h
            by_contra hno
            exact h ⟨hj, fun hmem => by
              obtain ⟨m, hm, hme⟩ := List.mem_map.1 hmem
              exact hno ⟨m, hm, hme⟩⟩

theorem validateStep_no_screenshots (fc : Nat) (hd : RawMatch) :
    validateStep 0 fc ([], [], []) hd = ([], [], []) := by
  unfold validateStep
  cases hs : hd.screenshotIndex with
  | none => rfl
  | some s =>
    cases hf : hd.figmaIndex with
    | none => rfl
    | some f =>
      dsimp only
      rw [if_neg]
      rintro ⟨a, b, -⟩
      omega

theorem validateMatches_no_screenshots (raw : List RawMatch) (fc : Nat) :
    validateMatches raw 0 fc = ([], [], []) := by
  unfold validateMatches
  induction raw with
  | nil => rfl
  | cons hd tl ih =>
    rw [List.foldl_cons, validateStep_no_screenshots]
    exact ih

theorem createFallbackMatching_no_screenshots (fc : Nat) :
    createFallbackMatching 0 fc = ⟨[], [], List.range fc⟩ := by
  unfold createFallbackMatching
  simp [List.range_eq_range']

/-- C1: for every AI matching response text and all counts `N ≥ 0`
screenshots and `M ≥ 0` designs, the match set produced by
`parseMatchingResponse` is a bijection on a subset: no `screenshotIndex` and
no `figmaIndex` occurs in two matches, every index in a match is in range
(`[0,N)` resp. `[0,M)`), every confidence lies in `[0,100]`, and every
in-range index on either side occurs in exactly one of {a match, the
corresponding unmatched list}. -/
theorem c1_matcher_bijection (resp : Option ParsedMatching) (sc fc : Nat) :
    ((parseMatchingResponse resp sc fc).«matches».map
        (·.screenshotIndex)).Nodup ∧
    ((parseMatchingResponse resp sc fc).«matches».map (·.figmaIndex)).Nodup ∧
    (∀ m ∈ (parseMatchingResponse resp sc fc).«matches»,
      m.screenshotIndex < sc ∧ m.figmaIndex < fc ∧
      0 ≤ m.confidence ∧ m.confidence ≤ 100) ∧
    (∀ i, i < sc →
      ((∃ m ∈ (parseMatchingResponse resp sc fc).«matches»,
          m.screenshotIndex = i) ↔
        i ∉ (parseMatchingResponse resp sc fc).unmatchedScreenshots)) ∧
    (∀ j, j < fc →
      ((∃ m ∈ (parseMatchingResponse resp sc fc).«matches», m.figmaIndex = j) ↔
        j ∉ (parseMatchingResponse resp sc fc).unmatchedFigmaDesigns)) :=
  parseMatchingResponse_wf resp sc fc

/-- Witness for C1 at a concrete response containing an out-of-range pair, a
duplicate pair and an over-100 confidence, with `N = M = 2`. -/
theorem c1_matcher_bijection_witness :
    ((parseMatchingResponse
        (some ⟨[⟨some 0, some 1, some 120, none⟩,
                ⟨some 0, some 0, some 5, some "duplicate screenshot"⟩,
                ⟨some 1, some 5, none, none⟩,
                ⟨some 1, some 0, some 0, none⟩]⟩) 2 2).«matches».map
        (·.screenshotIndex)).Nodup ∧
    ((parseMatchingResponse
        (some ⟨[⟨some 0, some 1, some 120, none⟩,
                ⟨some 0, some 0, some 5, some "duplicate screenshot"⟩,
                ⟨some 1, some 5, none, none⟩,
                ⟨some 1, some 0, some 0, none⟩]⟩) 2 2).«matches».map
        (·.figmaIndex)).Nodup ∧
    (∀ m ∈ (parseMatchingResponse
        (some ⟨[⟨some 0, some 1, some 120, none⟩,
                ⟨some 0, some 0, some 5, some "duplicate screenshot"⟩,
                ⟨some 1, some 5, none, none⟩,
                ⟨some 1, some 0, some 0, none⟩]⟩) 2 2).«matches»,
      m.screenshotIndex < 2 ∧ m.figmaIndex < 2 ∧
      0 ≤ m.confidence ∧ m.confidence ≤ 100) ∧
    (∀ i, i < 2 →
      ((∃ m ∈ (parseMatchingResponse
          (some ⟨[⟨some 0, some 1, some 120, none⟩,
                  ⟨some 0, some 0, some 5, some "duplicate screenshot"⟩,
                  ⟨some 1, some 5, none, none⟩,
                  ⟨some 1, some 0, some 0, none⟩]⟩) 2 2).«matches»,
          m.screenshotIndex = i) ↔
        i ∉ (parseMatchingResponse
          (some ⟨[⟨some 0, some 1, some 120, none⟩,
                  ⟨some 0, some 0, some 5, some "duplicate screenshot"⟩,
                  ⟨some 1, some 5, none, none⟩,
                  ⟨some 1, some 0, some 0, none⟩]⟩) 2 2).unmatchedScreenshots)) ∧
    (∀ j, j < 2 →
      ((∃ m ∈ (parseMatchingResponse
          (some ⟨[⟨some 0, some 1, some 120, none⟩,
                  ⟨some 0, some 0, some 5, some "duplicate screenshot"⟩,
                  ⟨some 1, some 5, none, none⟩,
                  ⟨some 1, some 0, some 0, none⟩]⟩) 2 2).«matches»,
          m.figmaIndex = j) ↔
        j ∉ (parseMatchingResponse
          (some ⟨[⟨some 0, some 1, some 120, none⟩,
                  ⟨some 0, some 0, some 5, some "duplicate screenshot"⟩,
                  ⟨some 1, some 5, none, none⟩,
                  ⟨some 1, some 0, some 0, none⟩]⟩) 2 2).unmatchedFigmaDesigns)) :=
  c1_matcher_bijection
    (some ⟨[⟨some 0, some 1, some 120, none⟩,
            ⟨some 0, some 0, some 5, some "duplicate screenshot"⟩,
            ⟨some 1, some 5, none, none⟩,
            ⟨some 1, some 0, some 0, none⟩]⟩) 2 2

/-- C3: degenerate matcher policy. `match` with exactly one screenshot and
one design returns the single pair (0,0) with confidence 100 and both
unmatched lists empty, for every AI-call outcome `ai` (the result does not
depend on `ai`: the AI collaborator is not consulted); with one screenshot
and `M > 1` designs it returns the single pair (0,0) with
`unmatchedFigmaDesigns = [1, ..., M-1]`, again for every `ai`; with zero
screenshots and `M ≥ 1` designs it returns zero matches and all `M` design
indices unmatched. -/
theorem c3_matcher_degenerate :
    (∀ ai, matchScreenshotsToDesigns 1 1 ai =
      ⟨[⟨0, 0, 100, "Single screenshot matched to single design"⟩], [], []⟩) ∧
    (∀ fc ai, 1 < fc → matchScreenshotsToDesigns 1 fc ai =
      ⟨[⟨0, 0, 80,
          "Single screenshot matched to first Figma design. Upload additional screenshots to match other designs."⟩],
        [], (List.range (fc - 1)).map (· + 1)⟩) ∧
    (∀ fc ai, 1 ≤ fc → matchScreenshotsToDesigns 0 fc ai =
      ⟨[], [], List.range fc⟩) := by
  refine ⟨?_, ?_, ?_⟩
  · intro ai
    unfold matchScreenshotsToDesigns
    rw [if_pos ⟨rfl, rfl⟩]
  · intro fc ai hfc
    unfold matchScreenshotsToDesigns
    rw [if_neg (by omega), if_pos ⟨rfl, hfc⟩]
  · intro fc ai hfc
    unfold matchScreenshotsToDesigns
    rw [if_neg (by omega), if_neg (by omega)]
    cases ai with
    | none => exact createFallbackMatching_no_screenshots fc
    | some resp =>
      dsimp only
      cases resp with
      | none => exact createFallbackMatching_no_screenshots fc
      | some parsed =>
        unfold parseMatchingResponse
        dsimp only
        rw [if_neg (by rintro ⟨-, h, -⟩; omega),
          validateMatches_no_screenshots,
          if_neg (by rintro ⟨-, h, -⟩; omega)]
        simp

/-- Witness for C3: instantiates the three degenerate cases at concrete
sizes and AI outcomes. -/
theorem c3_matcher_degenerate_witness :
    matchScreenshotsToDesigns 1 1 (some none) =
      ⟨[⟨0, 0, 100, "Single screenshot matched to single design"⟩], [], []⟩ ∧
    (1 < 3 ∧ matchScreenshotsToDesigns 1 3 none =
      ⟨[⟨0, 0, 80,
          "Single screenshot matched to first Figma design. Upload additional screenshots to match other designs."⟩],
        [], (List.range 2).map (· + 1)⟩) ∧
    (1 ≤ 2 ∧ matchScreenshotsToDesigns 0 2
        (some (some ⟨[⟨some 0, some 0, some 90, none⟩]⟩)) =
      ⟨[], [], List.range 2⟩) :=
  ⟨c3_matcher_degenerate.1 (some none),
   ⟨by norm_num, c3_matcher_degenerate.2.1 3 none (by norm_num)⟩,
   ⟨by norm_num, c3_matcher_degenerate.2.2 2
      (some (some ⟨[⟨some 0, some 0, some 90, none⟩]⟩)) (by norm_num)⟩⟩

/-- C4: whenever the AI matching call throws (`ai = none`), returns no
parseable JSON (`resp = none`), or yields zero valid matches while both
`N > 0` and `M > 0`, the matcher returns the deterministic index-order
fallback: matches `(i, i)` for `i ∈ [0, min N M)` with confidence exactly 50
and an order-based-fallback reasoning, screenshot indices
`min(N,M), ..., N-1` unmatched and design indices `min(N,M), ..., M-1`
unmatched. (When `N = 1` the degenerate branches answer before any AI call,
so the thrown-call case is stated for `N ≠ 1`.) -/
theorem c4_ai_failure_fallback (sc fc : Nat) (hsc : 0 < sc) (hfc : 0 < fc) :
    (sc ≠ 1 → matchScreenshotsToDesigns sc fc none =
      ⟨(List.range (min sc fc)).map fun i =>
          ⟨i, i, 50, "Fallback: matched by upload order"⟩,
        List.range' (min sc fc) (sc - min sc fc),
        List.range' (min sc fc) (fc - min sc fc)⟩) ∧
    (parseMatchingResponse none sc fc =
      ⟨(List.range (min sc fc)).map fun i =>
          ⟨i, i, 50, "Fallback: matched by upload order"⟩,
        List.range' (min sc fc) (sc - min sc fc),
        List.range' (min sc fc) (fc - min sc fc)⟩) ∧
    (∀ parsed : ParsedMatching,
      (validateMatches parsed.«matches» sc fc).1 = [] →
      parseMatchingResponse (some parsed) sc fc =
        ⟨(List.range (min sc fc)).map fun i =>
            ⟨i, i, 50, "Fallback: matched by upload order"⟩,
          List.range' (min sc fc) (sc - min sc fc),
          List.range' (min sc fc) (fc - min sc fc)⟩) := by
  have hfb : createFallbackMatching sc fc =
      ⟨(List.range (min sc fc)).map fun i =>
          ⟨i, i, 50, "Fallback: matched by upload order"⟩,
        List.range' (min sc fc) (sc - min sc fc),
        List.range' (min sc fc) (fc - min sc fc)⟩ := rfl
  refine ⟨?_, ?_, ?_⟩
  · intro hsc1
    unfold matchScreenshotsToDesigns
    rw [if_neg (by omega), if_neg (by omega)]
    exact hfb
  · exact hfb
  · intro parsed hv
    unfold parseMatchingResponse
    dsimp only
    by_cases h1 : parsed.«matches».isEmpty = true ∧ 0 < sc ∧ 0 < fc
    · rw [if_pos h1]
      exact hfb
    · rw [if_neg h1, if_pos ⟨by simp [hv], hsc, hfc⟩]
      exact hfb

/-- Witness for C4 at `N = 2`, `M = 3`, with a parsed response whose only
raw match is out of range (so zero valid matches survive validation). -/
theorem c4_ai_failure_fallback_witness :
    (0 < 2 ∧ 0 < 3 ∧ (2 : Nat) ≠ 1 ∧
      (validateMatches (⟨[⟨some 7, some 0, some 90, none⟩]⟩ :
          ParsedMatching).«matches» 2 3).1 = []) ∧
    matchScreenshotsToDesigns 2 3 none =
      ⟨(List.range (min 2 3)).map fun i =>
          ⟨i, i, 50, "Fallback: matched by upload order"⟩,
        List.range' (min 2 3) (2 - min 2 3),
        List.range' (min 2 3) (3 - min 2 3)⟩ ∧
    parseMatchingResponse (some ⟨[⟨some 7, some 0, some 90, none⟩]⟩) 2 3 =
      ⟨(List.range (min 2 3)).map fun i =>
          ⟨i, i, 50, "Fallback: matched by upload order"⟩,
        List.range' (min 2 3) (2 - min 2 3),
        List.range' (min 2 3) (3 - min 2 3)⟩ :=
  ⟨⟨by norm_num, by norm_num, by norm_num, by decide⟩,
   (c4_ai_failure_fallback 2 3 (by norm_num) (by norm_num)).1 (by norm_num),
   (c4_ai_failure_fallback 2 3 (by norm_num) (by norm_num)).2.2
     ⟨[⟨some 7, some 0, some 90, none⟩]⟩ (by decide)⟩

/-! ## Comparison aggregator data model (`UXValidationResult` in
`dist/bedrock/client.d.ts`, consumed by `convertToLegacyFormat` in
`src/unnamed/part_006`). JSON counts are modelled as `Nat` (the interfaces
declare them as numeric counts). -/

inductive Severity where
  | critical
  | major
  | minor
  deriving Repr, DecidableEq

inductive MatchStatus where
  | pass
  | warning
  | fail
  deriving Repr, DecidableEq

inductive IssueCategory where
  | missing_element
  | wrong_style
  | wrong_position
  | wrong_content
  | extra_element
  deriving Repr, DecidableEq

/-- Severity values the collaborator may report on extra components and
overlaps (`'minor' | 'major'` in the interface). -/
inductive ReportedSeverity where
  | minor
  | major
  deriving Repr, DecidableEq

/-- Percentage-space rectangle (`BoundingBox`). The coordinates are not
inspected by the aggregator, only forwarded. -/
structure BoundingBox where
  x : Int
  y : Int
  width : Int
  height : Int
  deriving Repr, DecidableEq

/-- `IssueWithLocation`. -/
structure IssueWithLocation where
  description : String
  bounding_box : Option BoundingBox
  deriving Repr, DecidableEq

/-- A `string | IssueWithLocation` union member. -/
inductive IssueEntry where
  | str (s : String)
  | obj (i : IssueWithLocation)
  deriving Repr, DecidableEq

/-- `getDescription` (part_006): a plain string is its own description. -/
def getDescription : IssueEntry → String
  | .str s => s
  | .obj i => i.description

/-- `extractBoundingBox` (part_006): only an object entry can carry a
bounding box (the `typeof x/y === 'number'` checks hold by typing here). -/
def extractBoundingBox : IssueEntry → Option BoundingBox
  | .str _ => none
  | .obj i => i.bounding_box

/-- `a || b` on optional bounding boxes (`comp.bounding_box || this.extractBoundingBox(...)`). -/
def bbOr (a b : Option BoundingBox) : Option BoundingBox :=
  match a with
  | some x => some x
  | none => b

/-- `ComponentIssues`. -/
structure ComponentIssues where
  missing_component : Bool
  missing_component_note : String
  grammar_issues : List IssueEntry
  text_mismatch : List IssueEntry
  major_color_differences : List IssueEntry
  missing_fields : List String
  field_notes : String
  typography_issues : List IssueEntry
  deriving Repr, DecidableEq

/-- `ComponentAnalysis`. -/
structure ComponentAnalysis where
  name : String
  type : String
  description : String
  found_in_input : Bool
  bounding_box : Option BoundingBox
  issues : ComponentIssues
  status : MatchStatus
  deriving Repr, DecidableEq

/-- `ExtraComponent`. -/
structure ExtraComponent where
  name : String
  type : String
  description : String
  bounding_box : Option BoundingBox
  severity : ReportedSeverity
  deriving Repr, DecidableEq

/-- `BackgroundColorIssue`. -/
structure BackgroundColorIssue where
  has_difference : Bool
  reference_color : String
  input_color : String
  note : String
  deriving Repr, DecidableEq

/-- `GlobalIssues`. -/
structure GlobalIssues where
  background_color : BackgroundColorIssue
  color_issues : List IssueEntry
  grammar_issues : List IssueEntry
  typography_issues : List IssueEntry
  deriving Repr, DecidableEq

/-- `OverlapIssue`. -/
structure OverlapIssue where
  element_name : String
  overlaps_with : String
  location : String
  bounding_box : Option BoundingBox
  severity : ReportedSeverity
  deriving Repr, DecidableEq

/-- `ValidationSummary`. -/
structure ValidationSummary where
  total_reference_components : Nat
  components_found : Nat
  components_missing : Nat
  extra_components_count : Nat
  grammar_issues_count : Nat
  color_issues_count : Nat
  typography_issues_count : Nat
  overlapping_elements_count : Nat
  total_issues : Nat
  deriving Repr, DecidableEq

/-- `UXValidationResult`: the collaborator's structured verdict. -/
structure UXValidationResult where
  reference_components : List ComponentAnalysis
  extra_components_in_input : List ExtraComponent
  global_issues : GlobalIssues
  overlapping_elements : List OverlapIssue
  summary : ValidationSummary
  overall_status : MatchStatus
  conclusion : String
  deriving Repr, DecidableEq

/-- `UIComparisonIssue` (the flattened legacy issue shape). -/
structure UIComparisonIssue where
  severity : Severity
  category : IssueCategory
  description : String
  location : String
  boundingBox : Option BoundingBox
  deriving Repr, DecidableEq

/-- `UIComparisonResult` (the legacy result shape; the `detailedResult`
echo field is omitted as it is a verbatim copy of the input). -/
structure UIComparisonResult where
  overallMatch : MatchStatus
  matchPercentage : Nat
  issues : List UIComparisonIssue
  summary : String
  recommendations : List String
  deriving Repr, DecidableEq

/-- `ReportedSeverity` mapped into the legacy severity scale:
`extra.severity === 'major' ? 'major' : 'minor'` in part_006. -/
def reportedToSeverity : ReportedSeverity → Severity
  | .major => Severity.major
  | .minor => Severity.minor

/-- The issues contributed by one reference component, in push order
(missing component, grammar, color, typography, missing fields);
part_006 lines 505–556. -/
def componentIssues (comp : ComponentAnalysis) : List UIComparisonIssue :=
  (if !comp.found_in_input || comp.issues.missing_component then
    [⟨Severity.critical, IssueCategory.missing_element,
      "Missing component: " ++ comp.name ++ " - " ++
        (if comp.issues.missing_component_note = "" then comp.description
         else comp.issues.missing_component_note),
      comp.description, comp.bounding_box⟩]
   else []) ++
  comp.issues.grammar_issues.map (fun g =>
    ⟨Severity.major, IssueCategory.wrong_content, getDescription g, comp.name,
      bbOr comp.bounding_box (extractBoundingBox g)⟩) ++
  comp.issues.major_color_differences.map (fun c =>
    ⟨Severity.major, IssueCategory.wrong_style, getDescription c, comp.name,
      bbOr comp.bounding_box (extractBoundingBox c)⟩) ++
  comp.issues.typography_issues.map (fun t =>
    ⟨Severity.minor, IssueCategory.wrong_style, getDescription t, comp.name,
      bbOr comp.bounding_box (extractBoundingBox t)⟩) ++
  comp.issues.missing_fields.map (fun f =>
    ⟨Severity.major, IssueCategory.missing_element, "Missing field: " ++ f,
      comp.name, comp.bounding_box⟩)

/-- The issues contributed by the global-issue block (color, grammar,
typography), part_006 lines 569–596. -/
def globalIssuesList (g : GlobalIssues) : List UIComparisonIssue :=
  g.color_issues.map (fun c =>
    ⟨Severity.major, IssueCategory.wrong_style,
      "Color issue: " ++ getDescription c, "Global", extractBoundingBox c⟩) ++
  g.grammar_issues.map (fun gr =>
    ⟨Severity.major, IssueCategory.wrong_content,
      "Grammar issue: " ++ getDescription gr, "Global",
      extractBoundingBox gr⟩) ++
  g.typography_issues.map (fun t =>
    ⟨Severity.minor, IssueCategory.wrong_style,
      "Typography issue: " ++ getDescription t, "Global",
      extractBoundingBox t⟩)

/-- `Math.round(((summary.components_found || 0) / (summary.total_reference_components || 1)) * 100)`
for nonnegative counts: `round(q) = floor(q + 1/2)` written with `Nat`
division. -/
def computeMatchPercentage (s : ValidationSummary) : Nat :=
  let total := if s.total_reference_components = 0 then 1
               else s.total_reference_components
  (200 * s.components_found + total) / (2 * total)

/-- The recommendation list built from the summary counts
(part_006 lines 612–630). -/
def buildRecommendations (s : ValidationSummary) : List String :=
  (if 0 < s.components_missing then
    ["Add " ++ toString s.components_missing ++
      " missing component(s) from the design"] else []) ++
  (if 0 < s.extra_components_count then
    ["Review " ++ toString s.extra_components_count ++
      " extra component(s) not in the design"] else []) ++
  (if 0 < s.grammar_issues_count then
    ["Fix " ++ toString s.grammar_issues_count ++
      " grammar/text issue(s)"] else []) ++
  (if 0 < s.color_issues_count then
    ["Fix " ++ toString s.color_issues_count ++
      " color difference(s)"] else []) ++
  (if 0 < s.typography_issues_count then
    ["Review " ++ toString s.typography_issues_count ++
      " typography issue(s)"] else []) ++
  (if 0 < s.overlapping_elements_count then
    ["Fix " ++ toString s.overlapping_elements_count ++
      " overlapping element(s)"] else [])

/-- `convertToLegacyFormat` (part_006 lines 503–639): flatten the
per-component verdict into the legacy issue list, compute the match
percentage from the summary counts, and copy `overall_status` and
`conclusion` through. -/
def convertToLegacyFormat (d : UXValidationResult) : UIComparisonResult :=
  { overallMatch := d.overall_status
    matchPercentage := computeMatchPercentage d.summary
    issues :=
      (d.reference_components.map componentIssues).flatten ++
      d.extra_components_in_input.map (fun extra =>
        ⟨reportedToSeverity extra.severity, IssueCategory.extra_element,
          "Extra component not in design: " ++ extra.name ++ " - " ++
            extra.description,
          extra.description, extra.bounding_box⟩) ++
      globalIssuesList d.global_issues ++
      d.overlapping_elements.map (fun overlap =>
        ⟨reportedToSeverity overlap.severity, IssueCategory.wrong_position,
          overlap.element_name ++ " overlaps with " ++ overlap.overlaps_with,
          overlap.location, overlap.bounding_box⟩)
    summary := d.conclusion
    recommendations := buildRecommendations d.summary }

/-- Outcome of extracting and parsing the JSON object from the
collaborator's comparison response in `compareUIScreenshot`
(part_006 lines 256–281): `noJson` = the `/{[\s\S]*}/` regex found
nothing, `parseError` = `JSON.parse` (or the conversion) threw, `ok` = a
well-typed `UXValidationResult` was obtained. -/
inductive ComparisonParseOutcome where
  | noJson
  | parseError
  | ok (d : UXValidationResult)
  deriving Repr, DecidableEq

/-- `compareUIScreenshot` (part_006 lines 249–281), as a function of the
parse outcome of the collaborator's response. Totality of this function is
the embedding of "never raises on a parse failure". -/
def compareUIScreenshot : ComparisonParseOutcome → UIComparisonResult
  | .ok d => convertToLegacyFormat d
  | .parseError =>
    { overallMatch := MatchStatus.warning
      matchPercentage := 0
      issues := []
      summary := "Failed to parse comparison results"
      recommendations := ["Please review manually"] }
  | .noJson =>
    { overallMatch := MatchStatus.warning
      matchPercentage := 0
      issues := []
      summary := "No comparison results generated"
      recommendations := ["Please review manually"] }

/-! ## Aggregator claims -/

/-- A collaborator verdict that reports `overall_status = pass` while its
own summary reports 0 of 10 reference components found. -/
def selfInconsistentVerdict : UXValidationResult :=
  { reference_components := []
    extra_components_in_input := []
    global_issues := ⟨⟨false, "", "", ""⟩, [], [], []⟩
    overlapping_elements := []
    summary := ⟨10, 0, 10, 0, 0, 0, 0, 0, 10⟩
    overall_status := MatchStatus.pass
    conclusion := "Looks good" }

/-- C2 counterexample: `compareUIScreenshot`/`convertToLegacyFormat` takes
`overallMatch` verbatim from the collaborator's `overall_status`, so a
verdict with `matchPercentage = 0 < 70` can still carry
`overallMatch = pass`, contradicting the claimed
`matchPercentage < 70 ⇒ overallMatch = fail` consistency. -/
theorem c2_counterexample :
    (compareUIScreenshot (ComparisonParseOutcome.ok
        selfInconsistentVerdict)).matchPercentage < 70 ∧
    (compareUIScreenshot (ComparisonParseOutcome.ok
        selfInconsistentVerdict)).overallMatch = MatchStatus.pass ∧
    (compareUIScreenshot (ComparisonParseOutcome.ok
        selfInconsistentVerdict)).overallMatch ≠ MatchStatus.fail := by
  refine ⟨?_, rfl, by decide⟩
  decide

/-- C2 (amended): the comparison aggregator copies `overallMatch` verbatim
from the collaborator's reported `overall_status` field (it is not
recomputed from the issues or the percentage, and no
severity/percentage-consistency is enforced), while `matchPercentage` is
recomputed from the summary counts as
`round(100 * components_found / max(1, total_reference_components))`. -/
theorem c2_overall_status_copied_verbatim (d : UXValidationResult) :
    (compareUIScreenshot (ComparisonParseOutcome.ok d)).overallMatch =
      d.overall_status ∧
    (compareUIScreenshot (ComparisonParseOutcome.ok d)).matchPercentage =
      (200 * d.summary.components_found +
          max 1 d.summary.total_reference_components) /
        (2 * max 1 d.summary.total_reference_components) := by
  refine ⟨rfl, ?_⟩
  show computeMatchPercentage d.summary = _
  unfold computeMatchPercentage
  rcases Nat.eq_zero_or_pos d.summary.total_reference_components with h | h
  · rw [h]
    norm_num
  · rw [if_neg (by omega), Nat.max_eq_right (by omega)]

/-- C5: for every collaborator comparison response that cannot be parsed as
the expected JSON structure (no JSON object substring, or parsing throws),
`compareUIScreenshot` returns the safe default: `overallMatch = warning`,
`matchPercentage = 0`, empty issues, and a recommendation to review
manually. The embedding is a total function, which is the rendering of
"never raises an exception on account of the parse failure". -/
theorem c5_parse_failure_safe_default :
    (compareUIScreenshot ComparisonParseOutcome.noJson).overallMatch =
        MatchStatus.warning ∧
    (compareUIScreenshot ComparisonParseOutcome.noJson).matchPercentage = 0 ∧
    (compareUIScreenshot ComparisonParseOutcome.noJson).issues = [] ∧
    (compareUIScreenshot ComparisonParseOutcome.noJson).recommendations =
        ["Please review manually"] ∧
    (compareUIScreenshot ComparisonParseOutcome.parseError).overallMatch =
        MatchStatus.warning ∧
    (compareUIScreenshot ComparisonParseOutcome.parseError).matchPercentage
        = 0 ∧
    (compareUIScreenshot ComparisonParseOutcome.parseError).issues = [] ∧
    (compareUIScreenshot ComparisonParseOutcome.parseError).recommendations =
        ["Please review manually"] :=
  ⟨rfl, rfl, rfl, rfl, rfl, rfl, rfl, rfl⟩

/-- `computeMatchPercentage` written with `max`: the `|| 1` guard on the
denominator equals `max 1` on the `Nat` count. -/
theorem computeMatchPercentage_eq (s : ValidationSummary) :
    computeMatchPercentage s =
      (200 * s.components_found + max 1 s.total_reference_components) /
        (2 * max 1 s.total_reference_components) := by
  unfold computeMatchPercentage
  rcases Nat.eq_zero_or_pos s.total_reference_components with h | h
  · rw [h]
    norm_num
  · rw [if_neg (by omega), Nat.max_eq_right (by omega)]

/-- Any issue contributed by a reference component is in the flattened
issue list of `convertToLegacyFormat`. -/
theorem mem_issues_of_mem_componentIssues {d : UXValidationResult}
    {comp : ComponentAnalysis} {x : UIComparisonIssue}
    (hc : comp ∈ d.reference_components) (hx : x ∈ componentIssues comp) :
    x ∈ (convertToLegacyFormat d).issues := by
  unfold convertToLegacyFormat
  dsimp only
  simp only [List.mem_append]
  exact Or.inl (Or.inl (Or.inl (List.mem_flatten.2
    ⟨componentIssues comp, List.mem_map_of_mem _ hc, hx⟩)))

/-- C7: the aggregator's flattening assigns severity by the fixed category
mapping — missing component → critical; grammar/text, color and
missing-field issues → major; typography → minor; extra components and
overlaps → the collaborator-reported severity (which the interface
restricts to minor/major, anything other than `major` becoming `minor`) —
and computes `matchPercentage = round(100 * components_found /
max(1, total_reference_components))`, never dividing by zero. -/
theorem c7_severity_mapping_and_percentage (d : UXValidationResult) :
    (convertToLegacyFormat d).matchPercentage =
      (200 * d.summary.components_found +
          max 1 d.summary.total_reference_components) /
        (2 * max 1 d.summary.total_reference_components) ∧
    (∀ comp ∈ d.reference_components,
      (comp.found_in_input = false ∨ comp.issues.missing_component = true) →
      (⟨Severity.critical, IssueCategory.missing_element,
        "Missing component: " ++ comp.name ++ " - " ++
          (if comp.issues.missing_component_note = "" then comp.description
           else comp.issues.missing_component_note),
        comp.description, comp.bounding_box⟩ : UIComparisonIssue) ∈
        (convertToLegacyFormat d).issues) ∧
    (∀ comp ∈ d.reference_components, ∀ g ∈ comp.issues.grammar_issues,
      (⟨Severity.major, IssueCategory.wrong_content, getDescription g,
        comp.name, bbOr comp.bounding_box (extractBoundingBox g)⟩ :
        UIComparisonIssue) ∈ (convertToLegacyFormat d).issues) ∧
    (∀ comp ∈ d.reference_components,
      ∀ c ∈ comp.issues.major_color_differences,
      (⟨Severity.major, IssueCategory.wrong_style, getDescription c,
        comp.name, bbOr comp.bounding_box (extractBoundingBox c)⟩ :
        UIComparisonIssue) ∈ (convertToLegacyFormat d).issues) ∧
    (∀ comp ∈ d.reference_components, ∀ t ∈ comp.issues.typography_issues,
      (⟨Severity.minor, IssueCategory.wrong_style, getDescription t,
        comp.name, bbOr comp.bounding_box (extractBoundingBox t)⟩ :
        UIComparisonIssue) ∈ (convertToLegacyFormat d).issues) ∧
    (∀ comp ∈ d.reference_components, ∀ f ∈ comp.issues.missing_fields,
      (⟨Severity.major, IssueCategory.missing_element,
        "Missing field: " ++ f, comp.name, comp.bounding_box⟩ :
        UIComparisonIssue) ∈ (convertToLegacyFormat d).issues) ∧
    (∀ c ∈ d.global_issues.color_issues,
      (⟨Severity.major, IssueCategory.wrong_style,
        "Color issue: " ++ getDescription c, "Global",
        extractBoundingBox c⟩ : UIComparisonIssue) ∈
        (convertToLegacyFormat d).issues) ∧
    (∀ g ∈ d.global_issues.grammar_issues,
      (⟨Severity.major, IssueCategory.wrong_content,
        "Grammar issue: " ++ getDescription g, "Global",
        extractBoundingBox g⟩ : UIComparisonIssue) ∈
        (convertToLegacyFormat d).issues) ∧
    (∀ t ∈ d.global_issues.typography_issues,
      (⟨Severity.minor, IssueCategory.wrong_style,
        "Typography issue: " ++ getDescription t, "Global",
        extractBoundingBox t⟩ : UIComparisonIssue) ∈
        (convertToLegacyFormat d).issues) ∧
    (∀ extra ∈ d.extra_components_in_input,
      (⟨reportedToSeverity extra.severity, IssueCategory.extra_element,
        "Extra component not in design: " ++ extra.name ++ " - " ++
          extra.description,
        extra.description, extra.bounding_box⟩ : UIComparisonIssue) ∈
        (convertToLegacyFormat d).issues) ∧
    (∀ overlap ∈ d.overlapping_elements,
      (⟨reportedToSeverity overlap.severity, IssueCategory.wrong_position,
        overlap.element_name ++ " overlaps with " ++ overlap.overlaps_with,
        overlap.location, overlap.bounding_box⟩ : UIComparisonIssue) ∈
        (convertToLegacyFormat d).issues) := by
  refine ⟨computeMatchPercentage_eq d.summary, ?_, ?_, ?_, ?_, ?_, ?_, ?_,
    ?_, ?_, ?_⟩
  · intro comp hc hmiss
    apply mem_issues_of_mem_componentIssues hc
    unfold componentIssues
    simp only [List.mem_append]
    refine Or.inl (Or.inl (Or.inl (Or.inl ?_)))
    rw [if_pos]
    · exact List.mem_singleton.2 rfl
    · rcases hmiss with h | h <;> simp [h]
  · intro comp hc g hg
    apply mem_issues_of_mem_componentIssues hc
    unfold componentIssues
    simp only [List.mem_append]
    exact Or.inl (Or.inl (Or.inl (Or.inr (List.mem_map_of_mem _ hg))))
  · intro comp hc c hcol
    apply mem_issues_of_mem_componentIssues hc
    unfold componentIssues
    simp only [List.mem_append]
    exact Or.inl (Or.inl (Or.inr (List.mem_map_of_mem _ hcol)))
  · intro comp hc t ht
    apply mem_issues_of_mem_componentIssues hc
    unfold componentIssues
    simp only [List.mem_append]
    exact Or.inl (Or.inr (List.mem_map_of_mem _ ht))
  · intro comp hc f hf
    apply mem_issues_of_mem_componentIssues hc
    unfold componentIssues
    simp only [List.mem_append]
    exact Or.inr (List.mem_map_of_mem _ hf)
  · intro c hc
    unfold convertToLegacyFormat globalIssuesList
    dsimp only
    simp only [List.mem_append]
    exact Or.inl (Or.inr (Or.inl (Or.inl (List.mem_map_of_mem _ hc))))
  · intro g hg
    unfold convertToLegacyFormat globalIssuesList
    dsimp only
    simp only [List.mem_append]
    exact Or.inl (Or.inr (Or.inl (Or.inr (List.mem_map_of_mem _ hg))))
  · intro t ht
    unfold convertToLegacyFormat globalIssuesList
    dsimp only
    simp only [List.mem_append]
    exact Or.inl (Or.inr (Or.inr (List.mem_map_of_mem _ ht)))
  · intro extra hx
    unfold convertToLegacyFormat
    dsimp only
    simp only [List.mem_append]
    exact Or.inl (Or.inl (Or.inr (List.mem_map_of_mem _ hx)))
  · intro overlap ho
    unfold convertToLegacyFormat
    dsimp only
    simp only [List.mem_append]
    exact Or.inr (List.mem_map_of_mem _ ho)

/-- A concrete reference component with one issue of each kind. -/
def sampleComp : ComponentAnalysis :=
  { name := "Header"
    type := "header"
    description := "top header"
    found_in_input := false
    bounding_box := some ⟨1, 2, 30, 10⟩
    issues :=
      { missing_component := false
        missing_component_note := ""
        grammar_issues := [IssueEntry.str "typo in title"]
        text_mismatch := []
        major_color_differences := [IssueEntry.str "wrong blue"]
        missing_fields := ["subtitle"]
        field_notes := ""
        typography_issues := [IssueEntry.str "wrong font"] }
    status := MatchStatus.fail }

/-- A concrete collaborator verdict exercising every issue bucket. -/
def sampleVerdict : UXValidationResult :=
  { reference_components := [sampleComp]
    extra_components_in_input :=
      [⟨"Banner", "banner", "extra banner", none, ReportedSeverity.major⟩]
    global_issues := ⟨⟨false, "", "", ""⟩, [IssueEntry.str "global hue"],
      [], []⟩
    overlapping_elements :=
      [⟨"Button", "Input", "footer", none, ReportedSeverity.minor⟩]
    summary := ⟨4, 3, 1, 1, 1, 1, 1, 1, 6⟩
    overall_status := MatchStatus.warning
    conclusion := "Mostly matches" }

/-- Witness for C7 at `sampleVerdict`: the percentage formula, a
grammar-derived major issue, and an overlap with collaborator-reported
minor severity. -/
theorem c7_severity_mapping_witness :
    (sampleComp ∈ sampleVerdict.reference_components ∧
      IssueEntry.str "typo in title" ∈ sampleComp.issues.grammar_issues ∧
      (⟨"Button", "Input", "footer", none, ReportedSeverity.minor⟩ :
        OverlapIssue) ∈ sampleVerdict.overlapping_elements) ∧
    (convertToLegacyFormat sampleVerdict).matchPercentage =
      (200 * sampleVerdict.summary.components_found +
          max 1 sampleVerdict.summary.total_reference_components) /
        (2 * max 1 sampleVerdict.summary.total_reference_components) ∧
    (⟨Severity.major, IssueCategory.wrong_content,
      getDescription (IssueEntry.str "typo in title"), sampleComp.name,
      bbOr sampleComp.bounding_box
        (extractBoundingBox (IssueEntry.str "typo in title"))⟩ :
      UIComparisonIssue) ∈ (convertToLegacyFormat sampleVerdict).issues ∧
    (⟨reportedToSeverity ReportedSeverity.minor,
      IssueCategory.wrong_position, "Button" ++ " overlaps with " ++ "Input",
      "footer", none⟩ : UIComparisonIssue) ∈
      (convertToLegacyFormat sampleVerdict).issues :=
  ⟨⟨by decide, by decide, by decide⟩,
   (c7_severity_mapping_and_percentage sampleVerdict).1,
   (c7_severity_mapping_and_percentage sampleVerdict).2.2.1 sampleComp
     (by decide) (IssueEntry.str "typo in title") (by decide),
   (c7_severity_mapping_and_percentage sampleVerdict).2.2.2.2.2.2.2.2.2.2
     ⟨"Button", "Input", "footer", none, ReportedSeverity.minor⟩ (by decide)⟩

/-! ## Report publisher (`src/src/github/pr-handler.ts`) -/

/-- A PR comment as seen through the GitHub API: an id and a body. -/
structure Comment where
  id : Nat
  body : String
  deriving Repr, DecidableEq

/-- JS `body.includes(marker)`: `marker` occurs as a contiguous substring
of `body` (the empty marker is always contained). -/
def strIncludes (body marker : String) : Bool :=
  body.data.tails.any fun t => marker.data.isPrefixOf t

/-- `findCommentByMarker` (pr-handler.ts lines 161–165): first comment
whose body contains the marker. -/
def findCommentByMarker (comments : List Comment) (marker : String) :
    Option Comment :=
  comments.find? fun c => strIncludes c.body marker

/-- `postOrUpdateComment` (pr-handler.ts lines 169–178) as a transition on
the PR's comment-list state: update the found comment's body in place
(GitHub's `updateComment` replaces the body of the comment with that id),
otherwise append a freshly-created comment with the next fresh id `nextId`. -/
def postOrUpdateComment (st : List Comment) (nextId : Nat)
    (body marker : String) : List Comment :=
  match findCommentByMarker st marker with
  | some existing =>
    st.map fun c => if c.id = existing.id then { c with body := body } else c
  | none => st ++ [⟨nextId, body⟩]

/-- Number of comments in the state containing the marker. -/
def countMarker (st : List Comment) (marker : String) : Nat :=
  (st.filter fun c => strIncludes c.body marker).length

theorem map_update_id {st : List Comment} {n1 : Nat} {body : String}
    (h : ∀ c ∈ st, c.id ≠ n1) :
    st.map (fun c => if c.id = n1 then { c with body := body } else c) =
      st := by
  induction st with
  | nil => rfl
  | cons hd tl ih =>
    rw [List.map_cons, if_neg (h hd (by simp)),
      ih fun c hc => h c (by simp [hc])]

/-- C6: the report publish step is idempotent keyed by the marker string.
If some existing comment body contains the marker, that comment's body is
entirely overwritten (the comment with its id afterwards has exactly the
new body) and no new comment is created (the comment count is unchanged);
otherwise exactly one new comment is created. Consequently publishing twice
in a row with the same body from a marker-free state leaves exactly one
comment containing the marker, and the second publish does not change the
state at all. -/
theorem c6_idempotent_publish :
    (∀ (st : List Comment) (n : Nat) (body marker : String)
        (ex : Comment), findCommentByMarker st marker = some ex →
      (postOrUpdateComment st n body marker).length = st.length ∧
      (⟨ex.id, body⟩ : Comment) ∈ postOrUpdateComment st n body marker) ∧
    (∀ (st : List Comment) (n : Nat) (body marker : String),
      findCommentByMarker st marker = none →
      postOrUpdateComment st n body marker = st ++ [⟨n, body⟩]) ∧
    (∀ (st : List Comment) (n1 n2 : Nat) (body marker : String),
      strIncludes body marker = true →
      (∀ c ∈ st, strIncludes c.body marker = false) →
      (∀ c ∈ st, c.id ≠ n1) →
      countMarker (postOrUpdateComment st n1 body marker) marker = 1 ∧
      postOrUpdateComment (postOrUpdateComment st n1 body marker) n2 body
          marker =
        postOrUpdateComment st n1 body marker) := by
  refine ⟨?_, ?_, ?_⟩
  · intro st n body marker ex hfind
    unfold postOrUpdateComment
    rw [hfind]
    refine ⟨List.length_map _ _, ?_⟩
    have hmem : ex ∈ st := List.mem_of_find?_eq_some hfind
    have := List.mem_map_of_mem
      (fun c => if c.id = ex.id then { c with body := body } else c) hmem
    simpa using this
  · intro st n body marker hfind
    unfold postOrUpdateComment
    rw [hfind]
  · intro st n1 n2 body marker hbody hclean hfresh
    have hnone : findCommentByMarker st marker = none :=
      List.find?_eq_none.2 fun c hc => by simp [hclean c hc]
    have hst1 : postOrUpdateComment st n1 body marker = st ++ [⟨n1, body⟩] := by
      unfold postOrUpdateComment
      rw [hnone]
    constructor
    · rw [hst1]
      unfold countMarker
      rw [List.filter_append, List.filter_eq_nil_iff.2
        (fun c hc => by simp [hclean c hc])]
      simp [hbody]
    · rw [hst1]
      have hfind1 : findCommentByMarker (st ++ [⟨n1, body⟩]) marker =
          some ⟨n1, body⟩ := by
        unfold findCommentByMarker
        rw [List.find?_append]
        unfold findCommentByMarker at hnone
        rw [hnone]
        simp [hbody]
      conv in postOrUpdateComment (st ++ [⟨n1, body⟩]) n2 body marker =>
        unfold postOrUpdateComment
      rw [hfind1]
      dsimp only
      rw [List.map_append, map_update_id hfresh]
      simp

/-- Witness for C6: a concrete state with one unrelated comment, published
twice with a marker-bearing report body. -/
theorem c6_idempotent_publish_witness :
    (findCommentByMarker [⟨5, "UI QA MARKER old report"⟩] "UI QA MARKER" =
        some ⟨5, "UI QA MARKER old report"⟩ ∧
      findCommentByMarker [⟨5, "hello"⟩] "UI QA MARKER" = none ∧
      strIncludes "UI QA MARKER new report" "UI QA MARKER" = true ∧
      (∀ c ∈ [(⟨5, "hello"⟩ : Comment)],
        strIncludes c.body "UI QA MARKER" = false) ∧
      (∀ c ∈ [(⟨5, "hello"⟩ : Comment)], c.id ≠ 7)) ∧
    ((postOrUpdateComment [⟨5, "UI QA MARKER old report"⟩] 7
        "UI QA MARKER new report" "UI QA MARKER").length = 1 ∧
      (⟨5, "UI QA MARKER new report"⟩ : Comment) ∈
        postOrUpdateComment [⟨5, "UI QA MARKER old report"⟩] 7
          "UI QA MARKER new report" "UI QA MARKER") ∧
    postOrUpdateComment [⟨5, "hello"⟩] 7 "UI QA MARKER new report"
        "UI QA MARKER" =
      [⟨5, "hello"⟩] ++ [⟨7, "UI QA MARKER new report"⟩] ∧
    countMarker (postOrUpdateComment [⟨5, "hello"⟩] 7
        "UI QA MARKER new report" "UI QA MARKER") "UI QA MARKER" = 1 ∧
    postOrUpdateComment (postOrUpdateComment [⟨5, "hello"⟩] 7
        "UI QA MARKER new report" "UI QA MARKER") 9
        "UI QA MARKER new report" "UI QA MARKER" =
      postOrUpdateComment [⟨5, "hello"⟩] 7 "UI QA MARKER new report"
        "UI QA MARKER" :=
  ⟨⟨by decide, by decide, by decide, by decide, by decide⟩,
   c6_idempotent_publish.1 [⟨5, "UI QA MARKER old report"⟩] 7
     "UI QA MARKER new report" "UI QA MARKER" ⟨5, "UI QA MARKER old report"⟩
     (by decide),
   c6_idempotent_publish.2.1 [⟨5, "hello"⟩] 7 "UI QA MARKER new report"
     "UI QA MARKER" (by decide),
   (c6_idempotent_publish.2.2 [⟨5, "hello"⟩] 7 9 "UI QA MARKER new report"
     "UI QA MARKER" (by decide) (by decide) (by decide)).1,
   (c6_idempotent_publish.2.2 [⟨5, "hello"⟩] 7 9 "UI QA MARKER new report"
     "UI QA MARKER" (by decide) (by decide) (by decide)).2⟩

/-! ## Figma rate-limit retry wrapper (`src/src/figma/client.ts`) -/

def MAX_RETRIES : Nat := 5

def INITIAL_DELAY_MS : Nat := 2000

def MAX_DELAY_MS : Nat := 60000

/-- Outcome of one attempt of the wrapped call: success, or an HTTP error
carrying `response?.status` and the parsed `retry-after` header
(`none` models a missing header or one `parseInt` turns into `NaN`). -/
inductive FigmaOutcome (α : Type) where
  | ok (value : α)
  | httpError (status : Nat) (retryAfterHeader : Option Int)
  deriving Repr, DecidableEq

/-- The wait computation of `withRetry` (client.ts lines 78–94): use the
server's Retry-After seconds capped at `MAX_DELAY_MS` when it parses as a
positive number, otherwise exponential backoff
`INITIAL_DELAY_MS * 2 ^ attempt` capped at the same ceiling. -/
def computeWaitMs (retryAfterHeader : Option Int) (attempt : Nat) : Nat :=
  match retryAfterHeader with
  | some s =>
    if 0 < s then min (s.toNat * 1000) MAX_DELAY_MS
    else min (INITIAL_DELAY_MS * 2 ^ attempt) MAX_DELAY_MS
  | none => min (INITIAL_DELAY_MS * 2 ^ attempt) MAX_DELAY_MS

/-- Observable trace of one `withRetry` run: the returned value or the
propagated error `(status, retry-after header)`, how many times the wrapped
call was attempted, and the sequence of waits slept between attempts. -/
structure RetryTrace (α : Type) where
  result : Except (Nat × Option Int) α
  attemptsMade : Nat
  waits : List Nat
  deriving Repr

/-- The `for (attempt = 0; attempt <= maxRetries; attempt++)` loop of
`withRetry` (client.ts lines 44–108), with the remaining loop iterations as
structural fuel. The fuel-exhausted case corresponds to the
`throw lastError` after the loop, which is unreachable when starting from
`fuel = maxRetries + 1 - attempt`: the loop always exits by returning or
throwing at `attempt = maxRetries`. Retries happen only for status 429 and
only while `attempt < maxRetries`; any other error is rethrown at once. -/
def withRetryAux (fn : Nat → FigmaOutcome α) (maxRetries : Nat) :
    Nat → Nat → List Nat → RetryTrace α
  | 0, attempt, waits => ⟨Except.error (0, none), attempt, waits⟩
  | fuel + 1, attempt, waits =>
    match fn attempt with
    | .ok v => ⟨Except.ok v, attempt + 1, waits⟩
    | .httpError status hdr =>
      if status = 429 ∧ attempt < maxRetries then
        withRetryAux fn maxRetries fuel (attempt + 1)
          (waits ++ [computeWaitMs hdr attempt])
      else ⟨Except.error (status, hdr), attempt + 1, waits⟩

/-- `withRetry(fn, context)` with the default `maxRetries = MAX_RETRIES`. -/
def withRetry (fn : Nat → FigmaOutcome α) : RetryTrace α :=
  withRetryAux fn MAX_RETRIES (MAX_RETRIES + 1) 0 []

theorem withRetryAux_429_step {α : Type} (fn : Nat → FigmaOutcome α)
    (mr attempt : Nat) (waits : List Nat) (fuel : Nat) (hdr : Option Int)
    (hfn : fn attempt = .httpError 429 hdr) (hlt : attempt < mr) :
    withRetryAux fn mr (fuel + 1) attempt waits =
      withRetryAux fn mr fuel (attempt + 1)
        (waits ++ [computeWaitMs hdr attempt]) := by
  conv_lhs => unfold withRetryAux
  rw [hfn]
  dsimp only
  rw [if_pos ⟨rfl, hlt⟩]

theorem withRetryAux_stop {α : Type} (fn : Nat → FigmaOutcome α)
    (mr attempt : Nat) (waits : List Nat) (fuel : Nat) (status : Nat)
    (hdr : Option Int) (hfn : fn attempt = .httpError status hdr)
    (hstop : ¬(status = 429 ∧ attempt < mr)) :
    withRetryAux fn mr (fuel + 1) attempt waits =
      ⟨Except.error (status, hdr), attempt + 1, waits⟩ := by
  unfold withRetryAux
  rw [hfn]
  dsimp only
  rw [if_neg hstop]

theorem withRetryAux_429_run {α : Type} (fn : Nat → FigmaOutcome α)
    (mr : Nat) (hdr : Nat → Option Int) :
    ∀ (k attempt : Nat) (waits : List Nat), attempt + k ≤ mr →
    (∀ i, attempt ≤ i → i < attempt + k → fn i = .httpError 429 (hdr i)) →
    withRetryAux fn mr (mr + 1 - attempt) attempt waits =
      withRetryAux fn mr (mr + 1 - (attempt + k)) (attempt + k)
        (waits ++ (List.range' attempt k).map fun i =>
          computeWaitMs (hdr i) i) := by
  intro k
  induction k with
  | zero => intro attempt waits _ _; simp
  | succ k ih =>
    intro attempt waits hle hall
    have hstep : fn attempt = .httpError 429 (hdr attempt) :=
      hall attempt le_rfl (by omega)
    have hfuel : mr + 1 - attempt = (mr - attempt) + 1 := by omega
    rw [hfuel, withRetryAux_429_step fn mr attempt waits (mr - attempt)
      (hdr attempt) hstep (by omega)]
    have hrest := ih (attempt + 1)
      (waits ++ [computeWaitMs (hdr attempt) attempt]) (by omega)
      (fun i h1 h2 => hall i (by omega) (by omega))
    rw [show mr - attempt = mr + 1 - (attempt + 1) from by omega, hrest,
      show attempt + 1 + k = attempt + (k + 1) from by omega,
      List.range'_succ, List.map_cons, List.append_cons]
    simp

/-- C8: the design-provider retry wrapper retries only on HTTP 429; every
other error propagates immediately (after the failing attempt, with no
further attempts and no further waits); a call that always returns 429 is
attempted exactly `MAX_RETRIES + 1 = 6` times and then the 429 failure
propagates; each wait before a retry is the server's positive Retry-After
seconds times 1000 capped at 60000 ms, otherwise `2000 * 2 ^ attempt`
capped at 60000 ms. -/
theorem c8_rate_limit_retry_policy :
    MAX_RETRIES = 5 ∧
    (∀ {α : Type} (fn : Nat → FigmaOutcome α) (hdr : Nat → Option Int)
        (k status : Nat) (h : Option Int),
      k ≤ MAX_RETRIES →
      (∀ i, i < k → fn i = .httpError 429 (hdr i)) →
      fn k = .httpError status h → status ≠ 429 →
      (withRetry fn).result = Except.error (status, h) ∧
      (withRetry fn).attemptsMade = k + 1 ∧
      (withRetry fn).waits = (List.range k).map fun i =>
        computeWaitMs (hdr i) i) ∧
    (∀ {α : Type} (fn : Nat → FigmaOutcome α) (hdr : Nat → Option Int),
      (∀ i, i ≤ MAX_RETRIES → fn i = .httpError 429 (hdr i)) →
      (withRetry fn).result = Except.error (429, hdr MAX_RETRIES) ∧
      (withRetry fn).attemptsMade = MAX_RETRIES + 1 ∧
      (withRetry fn).waits = (List.range MAX_RETRIES).map fun i =>
        computeWaitMs (hdr i) i) ∧
    (∀ (s : Int) (a : Nat),
      (0 < s → computeWaitMs (some s) a = min (s.toNat * 1000) 60000) ∧
      (¬ 0 < s → computeWaitMs (some s) a = min (2000 * 2 ^ a) 60000) ∧
      computeWaitMs none a = min (2000 * 2 ^ a) 60000) := by
  refine ⟨rfl, ?_, ?_, ?_⟩
  · intro α fn hdr k status h hk hall hfn hne
    have hrun := withRetryAux_429_run fn MAX_RETRIES hdr k 0 [] (by omega)
      (fun i h1 h2 => hall i (by omega))
    unfold withRetry
    have h0 : MAX_RETRIES + 1 - 0 = MAX_RETRIES + 1 := by omega
    rw [← h0, hrun]
    have hfuel : MAX_RETRIES + 1 - (0 + k) = (MAX_RETRIES - k) + 1 := by
      omega
    rw [hfuel, Nat.zero_add, withRetryAux_stop fn MAX_RETRIES k _
      (MAX_RETRIES - k) status h hfn (by rintro ⟨h429, -⟩; exact hne h429)]
    refine ⟨rfl, rfl, ?_⟩
    simp [List.range_eq_range']
  · intro α fn hdr hall
    have hrun := withRetryAux_429_run fn MAX_RETRIES hdr MAX_RETRIES 0 []
      (by omega) (fun i h1 h2 => hall i (by omega))
    unfold withRetry
    have h0 : MAX_RETRIES + 1 - 0 = MAX_RETRIES + 1 := by omega
    rw [← h0, hrun,
      show (0 : Nat) + MAX_RETRIES = MAX_RETRIES from by omega,
      show MAX_RETRIES + 1 - MAX_RETRIES = 0 + 1 from by omega,
      withRetryAux_stop fn MAX_RETRIES MAX_RETRIES _ 0 429
        (hdr MAX_RETRIES) (hall MAX_RETRIES le_rfl)
        (by rintro ⟨-, hlt⟩; omega)]
    refine ⟨rfl, rfl, ?_⟩
    simp [List.range_eq_range']
  · intro s a
    refine ⟨fun h => ?_, fun h => ?_, rfl⟩
    · unfold computeWaitMs
      dsimp only
      rw [if_pos h]
      rfl
    · unfold computeWaitMs
      dsimp only
      rw [if_neg h]
      rfl

/-- Witness for C8: a call that always fails with 429 and Retry-After 10
is attempted 6 times with five 10-second waits; a call failing with 500
propagates at once. -/
theorem c8_rate_limit_retry_policy_witness :
    ((0 : Nat) ≤ MAX_RETRIES ∧ (500 : Nat) ≠ 429) ∧
    ((withRetry fun _ => FigmaOutcome.httpError (α := Nat) 500 none).result =
        Except.error (500, none) ∧
      (withRetry fun _ =>
        FigmaOutcome.httpError (α := Nat) 500 none).attemptsMade = 0 + 1 ∧
      (withRetry fun _ => FigmaOutcome.httpError (α := Nat) 500 none).waits =
        (List.range 0).map fun i => computeWaitMs (some 10) i) ∧
    ((withRetry fun _ =>
        FigmaOutcome.httpError (α := Nat) 429 (some 10)).result =
        Except.error (429, some 10) ∧
      (withRetry fun _ =>
        FigmaOutcome.httpError (α := Nat) 429 (some 10)).attemptsMade =
        MAX_RETRIES + 1 ∧
      (withRetry fun _ =>
        FigmaOutcome.httpError (α := Nat) 429 (some 10)).waits =
        (List.range MAX_RETRIES).map fun i => computeWaitMs (some 10) i) ∧
    ((0 : Int) < 10 ∧
      computeWaitMs (some 10) 0 = min ((10 : Int).toNat * 1000) 60000) :=
  ⟨⟨by decide, by decide⟩,
   c8_rate_limit_retry_policy.2.1 (fun _ => FigmaOutcome.httpError 500 none)
     (fun _ => some 10) 0 500 none (by decide)
     (fun i hi => absurd hi (by omega)) rfl (by decide),
   c8_rate_limit_retry_policy.2.2.1
     (fun _ => FigmaOutcome.httpError 429 (some 10)) (fun _ => some 10)
     (fun i _ => rfl),
   ⟨by decide, (c8_rate_limit_retry_policy.2.2.2 10 0).1 (by decide)⟩⟩

/-! ## Commit status derivation (`runAnalyzeMode`,
`src/src/index.ts` lines 385–408): one commit status is set on the PR head
commit, derived from the aggregate result set. -/

inductive CommitState where
  | success
  | failure
  | pending
  deriving Repr, DecidableEq

/-- The status/description pair passed to the single `setCommitStatus`
call at the end of `runAnalyzeMode`. -/
def deriveCommitStatus (results : List UIComparisonResult) :
    CommitState × String :=
  let hasFailures := results.any fun r => r.overallMatch == MatchStatus.fail
  let hasWarnings := results.any fun r =>
    r.overallMatch == MatchStatus.warning
  if hasFailures then
    (CommitState.failure, "UI discrepancies found - review required")
  else if hasWarnings then
    (CommitState.success, "Minor UI issues found - review recommended")
  else (CommitState.success, "All UI checks passed")

/-- C9: the commit status set after an analyze run is derived from the
aggregate result set: any `fail` result gives state `failure`; otherwise
any `warning` result gives state `success` with the warning description
(a warning alone never yields `failure`); otherwise `success`. -/
theorem c9_commit_status_derivation (results : List UIComparisonResult) :
    ((∃ r ∈ results, r.overallMatch = MatchStatus.fail) →
      deriveCommitStatus results =
        (CommitState.failure, "UI discrepancies found - review required")) ∧
    ((∀ r ∈ results, r.overallMatch ≠ MatchStatus.fail) →
      (∃ r ∈ results, r.overallMatch = MatchStatus.warning) →
      deriveCommitStatus results =
        (CommitState.success, "Minor UI issues found - review recommended")) ∧
    ((∀ r ∈ results, r.overallMatch ≠ MatchStatus.fail ∧
        r.overallMatch ≠ MatchStatus.warning) →
      deriveCommitStatus results =
        (CommitState.success, "All UI checks passed")) := by
  refine ⟨?_, ?_, ?_⟩
  · rintro ⟨r, hr, he⟩
    have h : (results.any fun r => r.overallMatch == MatchStatus.fail) =
        true :=
      List.any_eq_true.2 ⟨r, hr, by simp [he]⟩
    simp only [deriveCommitStatus, h, if_true]
  · intro hnofail hwarn
    obtain ⟨r, hr, he⟩ := hwarn
    have h1 : (results.any fun r => r.overallMatch == MatchStatus.fail) =
        false := by
      rw [List.any_eq_false]
      intro x hx
      simp [hnofail x hx]
    have h2 : (results.any fun r => r.overallMatch == MatchStatus.warning) =
        true :=
      List.any_eq_true.2 ⟨r, hr, by simp [he]⟩
    simp only [deriveCommitStatus, h1, h2, Bool.false_eq_true, if_false,
      if_true]
  · intro hnone
    have h1 : (results.any fun r => r.overallMatch == MatchStatus.fail) =
        false := by
      rw [List.any_eq_false]
      intro x hx
      simp [(hnone x hx).1]
    have h2 : (results.any fun r => r.overallMatch == MatchStatus.warning) =
        false := by
      rw [List.any_eq_false]
      intro x hx
      simp [(hnone x hx).2]
    simp only [deriveCommitStatus, h1, h2, Bool.false_eq_true, if_false]

/-- Witness for C9 at concrete result sets: one with a `fail`, one with
only a `warning`, and one with only `pass` results. -/
theorem c9_commit_status_derivation_witness :
    ((∃ r ∈ [(⟨MatchStatus.pass, 100, [], "", []⟩ : UIComparisonResult),
        ⟨MatchStatus.fail, 10, [], "", []⟩],
      r.overallMatch = MatchStatus.fail) ∧
      deriveCommitStatus [⟨MatchStatus.pass, 100, [], "", []⟩,
        ⟨MatchStatus.fail, 10, [], "", []⟩] =
        (CommitState.failure, "UI discrepancies found - review required")) ∧
    deriveCommitStatus [(⟨MatchStatus.warning, 80, [], "", []⟩ :
        UIComparisonResult)] =
      (CommitState.success, "Minor UI issues found - review recommended") ∧
    deriveCommitStatus [(⟨MatchStatus.pass, 100, [], "", []⟩ :
        UIComparisonResult)] =
      (CommitState.success, "All UI checks passed") :=
  ⟨⟨⟨⟨MatchStatus.fail, 10, [], "", []⟩, by decide, rfl⟩,
    (c9_commit_status_derivation _).1
      ⟨⟨MatchStatus.fail, 10, [], "", []⟩, by decide, rfl⟩⟩,
   (c9_commit_status_derivation _).2.1 (by decide)
     ⟨⟨MatchStatus.warning, 80, [], "", []⟩, by decide, rfl⟩,
   (c9_commit_status_derivation _).2.2 (by decide)⟩

/-! ## Annotation renderer (`src/src/utils/image-annotator.ts`) -/

/-- An input issue to `createAnnotatedImage`: severity, description,
location and an optional bounding box. In the typed model a present
bounding box has numeric `x`/`y`, so the source's
`typeof boundingBox.x === 'number'` guard is `Option.isSome`. -/
structure AnnIssue where
  severity : Severity
  description : String
  location : String
  boundingBox : Option BoundingBox
  deriving Repr, DecidableEq

/-- `AnnotationMarker` (image-annotator.ts lines 15–20). -/
structure AnnotationMarker where
  number : Nat
  boundingBox : BoundingBox
  severity : Severity
  description : String
  deriving Repr, DecidableEq

/-- One entry of the legend of an `AnnotationResult`. -/
structure LegendEntry where
  number : Nat
  severity : Severity
  description : String
  location : String
  deriving Repr, DecidableEq

/-- `AnnotationResult` (image-annotator.ts lines 168–177). -/
structure AnnotationResult where
  annotatedImageBase64 : String
  legend : List LegendEntry
  hasAnnotations : Bool
  deriving Repr, DecidableEq

/-- `annotateImage` (image-annotator.ts lines 90–162). The sharp
compositing pipeline (marker circles, highlight rectangles, PNG re-encode)
is abstracted as the `render` argument; in the typed model every marker
carries a bounding box with numeric fields, so the valid-marker filter
keeps all markers and the function returns the original image exactly when
there are no markers. -/
def annotateImage (render : String → List AnnotationMarker → String)
    (imageBase64 : String) (markers : List AnnotationMarker) : String :=
  if markers.isEmpty then imageBase64
  else render imageBase64 markers

/-- One iteration of the marker/legend loop of `createAnnotatedImage`
(image-annotator.ts lines 188–208): an issue with a usable bounding box
gets the next marker number, and the number is incremented. -/
def annStep (acc : List AnnotationMarker × List LegendEntry × Nat)
    (issue : AnnIssue) : List AnnotationMarker × List LegendEntry × Nat :=
  match issue.boundingBox with
  | some bb =>
    (acc.1 ++ [⟨acc.2.2, bb, issue.severity, issue.description⟩],
     acc.2.1 ++ [⟨acc.2.2, issue.severity, issue.description,
       issue.location⟩],
     acc.2.2 + 1)
  | none => acc

/-- The marker/legend loop of `createAnnotatedImage`, starting the marker
number at 1. -/
def markersLegendLoop (issues : List AnnIssue) :
    List AnnotationMarker × List LegendEntry × Nat :=
  issues.foldl annStep ([], [], 1)

/-- `createAnnotatedImage` (image-annotator.ts lines 180–229). -/
def createAnnotatedImage (render : String → List AnnotationMarker → String)
    (imageBase64 : String) (issues : List AnnIssue) : AnnotationResult :=
  let ml := markersLegendLoop issues
  if ml.1.isEmpty then
    { annotatedImageBase64 := imageBase64
      legend := []
      hasAnnotations := false }
  else
    { annotatedImageBase64 := annotateImage render imageBase64 ml.1
      legend := ml.2.1
      hasAnnotations := true }

theorem annStep_foldl_spec (issues : List AnnIssue) :
    ∀ (ms : List AnnotationMarker) (ls : List LegendEntry) (k : Nat),
    issues.foldl annStep (ms, ls, k) =
      (ms ++ ((issues.filter fun i => i.boundingBox.isSome).enumFrom k).map
        (fun p => ⟨p.1, p.2.boundingBox.getD ⟨0, 0, 0, 0⟩, p.2.severity,
          p.2.description⟩),
       ls ++ ((issues.filter fun i => i.boundingBox.isSome).enumFrom k).map
        (fun p => ⟨p.1, p.2.severity, p.2.description, p.2.location⟩),
       k + (issues.filter fun i => i.boundingBox.isSome).length) := by
  induction issues with
  | nil => intro ms ls k; simp
  | cons hd tl ih =>
    intro ms ls k
    rw [List.foldl_cons]
    by_cases h : hd.boundingBox.isSome
    · obtain ⟨bb, hbb⟩ := Option.isSome_iff_exists.1 h
      have hstep : annStep (ms, ls, k) hd =
          (ms ++ [⟨k, bb, hd.severity, hd.description⟩],
           ls ++ [⟨k, hd.severity, hd.description, hd.location⟩], k + 1) := by
        unfold annStep
        rw [hbb]
      rw [hstep, ih, List.filter_cons_of_pos (by simp [hbb])]
      simp [List.enumFrom, hbb, List.append_assoc]
      omega
    · have hstep : annStep (ms, ls, k) hd = (ms, ls, k) := by
        unfold annStep
        rw [Option.not_isSome_iff_eq_none.1 h]
      rw [hstep, ih,
        List.filter_cons_of_neg (by simp [Option.not_isSome_iff_eq_none.1 h])]

/-- C10: the annotation step turns exactly the issues whose bounding box is
usable (numeric `x`/`y`, i.e. present in the typed model) into markers
numbered 1..K in input order — the Nth usable issue gets marker N, and the
legend maps each marker number to that issue's severity, description and
location; when there are zero usable issues it returns the original image
bytes unchanged, an empty legend and `hasAnnotations = false`, for every
rendering function. -/
theorem c10_annotation_markers (render : String → List AnnotationMarker →
    String) (imageBase64 : String) (issues : List AnnIssue) :
    (markersLegendLoop issues).1 =
      ((issues.filter fun i => i.boundingBox.isSome).enumFrom 1).map
        (fun p => ⟨p.1, p.2.boundingBox.getD ⟨0, 0, 0, 0⟩, p.2.severity,
          p.2.description⟩) ∧
    ((issues.filter fun i => i.boundingBox.isSome) ≠ [] →
      (createAnnotatedImage render imageBase64 issues).legend =
        ((issues.filter fun i => i.boundingBox.isSome).enumFrom 1).map
          (fun p => ⟨p.1, p.2.severity, p.2.description, p.2.location⟩) ∧
      (createAnnotatedImage render imageBase64 issues).hasAnnotations =
        true) ∧
    ((issues.filter fun i => i.boundingBox.isSome) = [] →
      createAnnotatedImage render imageBase64 issues =
        { annotatedImageBase64 := imageBase64
          legend := []
          hasAnnotations := false }) := by
  have hloop := annStep_foldl_spec issues [] [] 1
  refine ⟨?_, ?_, ?_⟩
  · unfold markersLegendLoop
    rw [hloop]
    simp
  · intro hne
    unfold createAnnotatedImage markersLegendLoop
    rw [hloop]
    dsimp only
    rw [if_neg]
    · exact ⟨rfl, rfl⟩
    · simp only [List.nil_append, List.isEmpty_eq_true, List.map_eq_nil_iff,
        List.enumFrom_eq_nil]
      exact hne
  · intro hnil
    unfold createAnnotatedImage markersLegendLoop
    rw [hloop, hnil]
    simp

/-- Witness for C10: two issues with bounding boxes around one without —
markers 1 and 2 in input order — and the no-usable-issue no-op. -/
theorem c10_annotation_markers_witness :
    (([(⟨Severity.critical, "missing button", "header",
          some ⟨5, 5, 10, 10⟩⟩ : AnnIssue),
       ⟨Severity.major, "wrong color", "body", none⟩,
       ⟨Severity.minor, "font", "footer", some ⟨1, 2, 3, 4⟩⟩].filter
        fun i => i.boundingBox.isSome) ≠ [] ∧
      ([(⟨Severity.major, "no box", "anywhere", none⟩ : AnnIssue)].filter
        fun i => i.boundingBox.isSome) = []) ∧
    (markersLegendLoop
      [⟨Severity.critical, "missing button", "header", some ⟨5, 5, 10, 10⟩⟩,
       ⟨Severity.major, "wrong color", "body", none⟩,
       ⟨Severity.minor, "font", "footer", some ⟨1, 2, 3, 4⟩⟩]).1 =
      (([(⟨Severity.critical, "missing button", "header",
          some ⟨5, 5, 10, 10⟩⟩ : AnnIssue),
        ⟨Severity.major, "wrong color", "body", none⟩,
        ⟨Severity.minor, "font", "footer", some ⟨1, 2, 3, 4⟩⟩].filter
          fun i => i.boundingBox.isSome).enumFrom 1).map
        (fun p => ⟨p.1, p.2.boundingBox.getD ⟨0, 0, 0, 0⟩, p.2.severity,
          p.2.description⟩) ∧
    createAnnotatedImage (fun img _ => img ++ "+annotated") "imgbytes"
      [⟨Severity.major, "no box", "anywhere", none⟩] =
      { annotatedImageBase64 := "imgbytes"
        legend := []
        hasAnnotations := false } :=
  ⟨⟨by decide, by decide⟩,
   (c10_annotation_markers (fun img _ => img ++ "+annotated") "imgbytes"
     _).1,
   (c10_annotation_markers (fun img _ => img ++ "+annotated") "imgbytes"
     [⟨Severity.major, "no box", "anywhere", none⟩]).2.2 (by decide)⟩

end UIQA
